import Mathlib

/-!
# Verification of the howto-bot generation pipeline

This file gives a shallow embedding of the core of the `howto-bot`
repository (`server/rag.py` and `server/image_gen.py`) and settles the
frozen claims C1..C10 against it.

Modelling conventions:

* Python dicts are insertion-ordered association lists
  `List (String × Json)` with unique keys; `dict.get`, item assignment
  and `setdefault` are embedded by `dictGet`, `dictSet`, `dictSetdefault`.
* External collaborators (the OpenAI responses API, the legacy
  ChatCompletion API, the Qdrant search, the image providers) are passed
  in as oracles: a function from the prompt to `Except err String`
  (respectively an `Except` value for the one-shot search).  Raising is
  `Except.error`, returning is `Except.ok`.
* `json.loads` is embedded by a recursive-descent parser for JSON
  restricted to integer numerals (no fraction/exponent part); every
  input appearing in a theorem below stays inside this fragment.
* Machine-level side effects (the image cache) are an explicit
  filesystem map `String → Option (List Nat)`; bytes are `List Nat`.
* Note on the source text: `server/rag.py` lines 196-218 (the
  `if not context:` block of `generate_json`) are mis-indented by one
  column, which CPython rejects with an IndentationError.  The evident
  intent - the block sits inside `generate_json`, and its result is then
  unconditionally overwritten by the second LLM attempt at lines
  222-244 - is what this embedding models; the block is dead code either
  way, and no claim depends on the slip.
-/

set_option maxRecDepth 20000

/-! ## Python string primitives -/

/-- Whitespace recognised by Python `str.strip` (restricted to the ASCII
whitespace characters; the inputs below contain no exotic whitespace). -/
def pySpace (c : Char) : Bool :=
  c = ' ' || c = '\t' || c = '\n' || c = '\x0d' || c = '\x0b' || c = '\x0c'

/-- Python `str.strip` on a character list. -/
def pyStripList (cs : List Char) : List Char :=
  ((cs.dropWhile pySpace).reverse.dropWhile pySpace).reverse

/-- Python `str.strip` with no argument. -/
def pyStrip (s : String) : String :=
  ⟨pyStripList s.data⟩

/-- Python `str.removeprefix`: drop `p` from the front of `s` when `s`
starts with it (case-sensitive), otherwise return `s` unchanged. -/
def pyRemovePrefix (s p : String) : String :=
  if p.data.isPrefixOf s.data then ⟨s.data.drop p.data.length⟩ else s

/-- Python `str.capitalize`: first character uppercased, the rest
lowercased (ASCII case mapping; matches CPython on ASCII input). -/
def pyCapitalize (s : String) : String :=
  match s.data with
  | [] => ""
  | c :: cs => ⟨c.toUpper :: cs.map Char.toLower⟩

/-! ## JSON values (the result type of `json.loads`) -/

/-- Parsed JSON values.  Python dicts are insertion-ordered association
lists; numbers are restricted to integers (see the file header). -/
inductive Json where
  | null
  | bool (b : Bool)
  | num (n : Int)
  | str (s : String)
  | arr (elems : List Json)
  | obj (fields : List (String × Json))

/-- Whether a value is a Python dict. -/
def Json.isObj : Json → Bool
  | .obj _ => true
  | _ => false

/-- Python type name of a value, used in error messages. -/
def pyTypeName : Json → String
  | .null => "NoneType"
  | .bool _ => "bool"
  | .num _ => "int"
  | .str _ => "str"
  | .arr _ => "list"
  | .obj _ => "dict"

/-- Python truthiness of a JSON value. -/
def pyTruthy : Json → Bool
  | .null => false
  | .bool b => b
  | .num n => n != 0
  | .str s => s != ""
  | .arr xs => !xs.isEmpty
  | .obj kvs => !kvs.isEmpty

/-- A raised Python exception: class name and message. -/
structure PyErr where
  kind : String
  msg : String

/-- AttributeError raised when calling a method on a value that lacks it
(message simplified: CPython quotes the names). -/
def pyAttrErr (j : Json) (attr : String) : PyErr :=
  ⟨"AttributeError", pyTypeName j ++ " object has no attribute " ++ attr⟩

/-! ### Dict operations (Python semantics) -/

/-- Python `dict.get k` / `dict[k]` lookup: first (and by the unique-key
invariant only) binding of `k`. -/
def dictGet : List (String × Json) → String → Option Json
  | [], _ => none
  | (k', v) :: rest, k => if k' = k then some v else dictGet rest k

/-- Python `d[k] = v`: replace in place when the key exists (keeping its
position), otherwise append at the end. -/
def dictSet : List (String × Json) → String → Json → List (String × Json)
  | [], k, v => [(k, v)]
  | (k', v') :: rest, k, v =>
      if k' = k then (k, v) :: rest else (k', v') :: dictSet rest k v

/-- Python `d.setdefault k v`: insert at the end only when absent. -/
def dictSetdefault (kvs : List (String × Json)) (k : String) (v : Json) :
    List (String × Json) :=
  match dictGet kvs k with
  | some _ => kvs
  | none => kvs ++ [(k, v)]

/-! ## A JSON parser (embedding `json.loads` on the integer fragment) -/

/-- JSON insignificant whitespace. -/
def jsonWs (c : Char) : Bool :=
  c = ' ' || c = '\t' || c = '\n' || c = '\x0d'

/-- Skip insignificant whitespace. -/
def skipWs (cs : List Char) : List Char :=
  cs.dropWhile jsonWs

/-- Value of a hex digit. -/
def hexVal (c : Char) : Option Nat :=
  if '0' ≤ c ∧ c ≤ '9' then some (c.toNat - 48)
  else if 'a' ≤ c ∧ c ≤ 'f' then some (c.toNat - 87)
  else if 'A' ≤ c ∧ c ≤ 'F' then some (c.toNat - 55)
  else none

/-- Parse the body of a JSON string literal (the opening quote already
consumed), returning the characters and the remaining input.  Handles
the standard escapes; `\uXXXX` is restricted to non-surrogate scalars. -/
def parseStrChars : Nat → List Char → Option (List Char × List Char)
  | 0, _ => none
  | _ + 1, [] => none
  | fuel + 1, c :: rest =>
    if c = '"' then some ([], rest)
    else if c = '\\' then
      match rest with
      | [] => none
      | e :: rest' =>
        if e = 'u' then
          match rest' with
          | h1 :: h2 :: h3 :: h4 :: rest'' =>
            match hexVal h1, hexVal h2, hexVal h3, hexVal h4 with
            | some a, some b, some c3, some d =>
              let code := ((a * 16 + b) * 16 + c3) * 16 + d
              if 0xd800 ≤ code ∧ code < 0xe000 then none
              else
                match parseStrChars fuel rest'' with
                | some (cs, rem) => some (Char.ofNat code :: cs, rem)
                | none => none
            | _, _, _, _ => none
          | _ => none
        else
          let esc : Option Char :=
            if e = '"' then some '"'
            else if e = '\\' then some '\\'
            else if e = '/' then some '/'
            else if e = 'b' then some '\x08'
            else if e = 'f' then some '\x0c'
            else if e = 'n' then some '\n'
            else if e = 'r' then some '\x0d'
            else if e = 't' then some '\t'
            else none
          match esc with
          | none => none
          | some ec =>
            match parseStrChars fuel rest' with
            | some (cs, rem) => some (ec :: cs, rem)
            | none => none
    else if c.toNat < 32 then none
    else
      match parseStrChars fuel rest with
      | some (cs, rem) => some (c :: cs, rem)
      | none => none

/-- Digits to a natural number. -/
def digitsToNat (ds : List Char) : Nat :=
  ds.foldl (fun acc c => acc * 10 + (c.toNat - 48)) 0

/-- Parse a JSON number.  Restriction: integer numerals only; a
fraction or exponent part makes the parse fail (see the file header). -/
def parseNum (cs : List Char) : Option (Int × List Char) :=
  let (neg, cs1) : Bool × List Char :=
    match cs with
    | '-' :: rest => (true, rest)
    | _ => (false, cs)
  let digits := cs1.takeWhile Char.isDigit
  let rest := cs1.dropWhile Char.isDigit
  if digits.isEmpty then none
  else if digits.length > 1 ∧ digits.headD '0' = '0' then none
  else
    match rest with
    | '.' :: _ => none
    | 'e' :: _ => none
    | 'E' :: _ => none
    | _ =>
      let n : Int := Int.ofNat (digitsToNat digits)
      some (if neg then -n else n, rest)

mutual

/-- Parse one JSON value (leading whitespace allowed, trailing not
consumed). -/
def parseValue : Nat → List Char → Option (Json × List Char)
  | 0, _ => none
  | fuel + 1, cs =>
    let cs1 := skipWs cs
    match cs1 with
    | '"' :: rest =>
      match parseStrChars (rest.length + 1) rest with
      | some (cs2, rem) => some (Json.str ⟨cs2⟩, rem)
      | none => none
    | '\x7b' :: rest => parseObjBody fuel rest
    | '[' :: rest => parseArrBody fuel rest
    | 't' :: 'r' :: 'u' :: 'e' :: rest => some (Json.bool true, rest)
    | 'f' :: 'a' :: 'l' :: 's' :: 'e' :: rest => some (Json.bool false, rest)
    | 'n' :: 'u' :: 'l' :: 'l' :: rest => some (Json.null, rest)
    | _ =>
      match parseNum cs1 with
      | some (n, rest) => some (Json.num n, rest)
      | none => none

/-- Parse an object body (the opening brace already consumed). -/
def parseObjBody : Nat → List Char → Option (Json × List Char)
  | 0, _ => none
  | fuel + 1, cs =>
    let cs1 := skipWs cs
    match cs1 with
    | '\x7d' :: rest => some (Json.obj [], rest)
    | _ => parseMembers fuel cs1 []

/-- Parse the members of a non-empty object. -/
def parseMembers : Nat → List Char → List (String × Json) →
    Option (Json × List Char)
  | 0, _, _ => none
  | fuel + 1, cs, acc =>
    match skipWs cs with
    | '"' :: rest =>
      match parseStrChars (rest.length + 1) rest with
      | some (keyChars, rem) =>
        match skipWs rem with
        | ':' :: rem2 =>
          match parseValue fuel rem2 with
          | some (v, rem3) =>
            let acc' := dictSet acc ⟨keyChars⟩ v
            match skipWs rem3 with
            | ',' :: rem4 => parseMembers fuel rem4 acc'
            | '\x7d' :: rem4 => some (Json.obj acc', rem4)
            | _ => none
          | none => none
        | _ => none
      | none => none
    | _ => none

/-- Parse an array body (the opening bracket already consumed). -/
def parseArrBody : Nat → List Char → Option (Json × List Char)
  | 0, _ => none
  | fuel + 1, cs =>
    match skipWs cs with
    | ']' :: rest => some (Json.arr [], rest)
    | cs1 => parseElems fuel cs1 []

/-- Parse the elements of a non-empty array. -/
def parseElems : Nat → List Char → List Json → Option (Json × List Char)
  | 0, _, _ => none
  | fuel + 1, cs, acc =>
    match parseValue fuel cs with
    | some (v, rem) =>
      match skipWs rem with
      | ',' :: rem2 => parseElems fuel rem2 (acc ++ [v])
      | ']' :: rem2 => some (Json.arr (acc ++ [v]), rem2)
      | _ => none
    | none => none

end

/-- The exception raised by `json.loads` on malformed input (message
abbreviated). -/
def jsonDecodeErr : PyErr :=
  ⟨"JSONDecodeError", "Expecting value"⟩

/-- Embedding of `json.loads` on a character list. -/
def jsonLoadsChars (cs : List Char) : Except PyErr Json :=
  match parseValue (cs.length + 2) cs with
  | some (j, rest) => if (skipWs rest).isEmpty then .ok j else .error jsonDecodeErr
  | none => .error jsonDecodeErr

/-! ## Tolerant JSON extraction (`_extract_json`, rag.py lines 124-139) -/

/-- Index of the first occurrence of `pat` in `cs`, if any. -/
def findSubIdx (pat : List Char) : List Char → Option Nat
  | [] => if pat.isEmpty then some 0 else none
  | c :: rest =>
    if pat.isPrefixOf (c :: rest) then some 0
    else (· + 1) <$> findSubIdx pat rest

/-- The triple-backtick fence delimiter. -/
def fenceDelim : List Char := "```".data

/-- Whether the input starts with a case-insensitive `json` tag. -/
def startsWithJsonTag (cs : List Char) : Bool :=
  match cs with
  | a :: b :: c :: d :: _ =>
    a.toLower = 'j' && b.toLower = 's' && c.toLower = 'o' && d.toLower = 'n'
  | _ => false

/-- Interior of the first fenced code block, embedding the search for
the Python regex `(three backticks)(?:json)?\s*([\s\S]*?)(three backticks)`
(case-insensitive): the interior runs from just after the opening
delimiter and its optional `json` tag to the next closing delimiter.
The greedy `\s*` and the lazy interior only shift leading whitespace
into or out of the group, which the subsequent `strip` erases, so this
span is the one the regex engine reports. -/
def fenceInterior (cs : List Char) : Option (List Char) :=
  match findSubIdx fenceDelim cs with
  | none => none
  | some i =>
    let afterOpen := cs.drop (i + 3)
    let afterTag := if startsWithJsonTag afterOpen then afterOpen.drop 4 else afterOpen
    match findSubIdx fenceDelim afterTag with
    | none => none
    | some q => some (afterTag.take q)

/-- Replace the text by the stripped fence interior when a fenced block
is present (`text = fence.group(1).strip()`). -/
def fenceStep (cs : List Char) : List Char :=
  match fenceInterior cs with
  | some interior => pyStripList interior
  | none => cs

/-- The span matched by the Python regex `\{[\s\S]*\}`: from the first
opening brace through the last closing brace, provided the last closing
brace comes after the first opening brace. -/
def braceSpan (cs : List Char) : Option (List Char) :=
  match cs.findIdx? (fun c => c = '\x7b'), cs.reverse.findIdx? (fun c => c = '\x7d') with
  | some f, some r =>
    let l := cs.length - 1 - r
    if f < l then some ((cs.drop f).take (l - f + 1)) else none
  | _, _ => none

/-- Replace the text by the brace span when one is present. -/
def braceStep (cs : List Char) : List Char :=
  match braceSpan cs with
  | some span => span
  | none => cs

/-- Embedding of `_extract_json` (rag.py lines 124-139): reject empty
input, prefer the interior of a fenced code block, then narrow to the
first-to-last brace span, then parse as JSON. -/
def _extract_json (text : String) : Except PyErr Json :=
  if text = "" then .error ⟨"ValueError", "Empty LLM response"⟩
  else jsonLoadsChars (braceStep (fenceStep text.data))

/-! ## Retrieval (`retrieve`, rag.py lines 28-63) -/

/-- A retrieved passage: chunk text plus provenance. -/
structure Passage where
  text : String
  source : String

/-- Payload of a Qdrant hit (fields may be absent). -/
structure HitPayload where
  chunk : Option String
  source : Option String

/-- A Qdrant search hit (the payload attribute may be missing/None). -/
structure Hit where
  payload : Option HitPayload

/-- Embedding of `retrieve`: the whole body - lazy imports, embedding
the question, the Qdrant search - is one oracle `searchResult`; any
exception it raises is caught and turned into the empty list, otherwise
the hit payloads are projected to passages with `""` defaults. -/
def retrieve (searchResult : Except String (List Hit)) : List Passage :=
  match searchResult with
  | .error _ => []
  | .ok hits =>
    hits.map fun h =>
      match h.payload with
      | some p => ⟨p.chunk.getD "", p.source.getD ""⟩
      | none => ⟨"", ""⟩

/-! ## Prompt composition (`_build_prompt`, rag.py lines 73-120) -/

/-- The JSON schema block shared by both prompt variants. -/
def promptSchema : String :=
  "\x7b\n  \"title\": <string>,\n  \"description\": <string>,\n  \"steps\": [\x7b\"number\": <int>, \"title\": <string>, \"action\": <string>, \"why\": <string>, \"check\": <string>, \"illustration_caption\": <string>\x7d],\n  \"pro_tip\": <string>,\n  \"troubleshooting\": [\x7b\"issue\": <string>, \"fix\": <string>\x7d],\n  \"safety\": [<string>]\n\x7d"

/-- Text of the question-only (ungrounded) prompt before the question. -/
def ungroundedPre : String :=
  "You are a careful technical writer. Write a step-action how-to guide as JSON with this schema:\n\n"
  ++ promptSchema
  ++ "\n\nRules:\n- Use general knowledge and best practices to answer.\n- Keep each step concise and atomic.\n- Keep tone neutral and instructional.\n\nQuestion: "

/-- Text of the question-only (ungrounded) prompt after the question. -/
def ungroundedPost : String :=
  "\n\nRespond with ONLY JSON (no commentary).\n"

/-- Text of the grounded (RAG) prompt before the question. -/
def groundedPre : String :=
  "You are a careful technical writer. Using ONLY the information below, write a step-action how-to guide as JSON with this schema:\n\n"
  ++ promptSchema
  ++ "\n\nRules:\n- If the context does not contain enough information to answer, set \"steps\": [] and include only \"abstain\": true.\n- Keep each step concise and atomic.\n- Keep tone neutral and instructional.\n\nQuestion: "

/-- Text of the grounded prompt between the question and the passages. -/
def groundedMid : String := "\n\nContext:\n"

/-- Text of the grounded prompt after the passages. -/
def groundedPost : String :=
  "\n\nRespond with ONLY JSON (no commentary).\n"

/-- The passage join: `"\n\n".join(f"[{i+1}] {c['text']}")`. -/
def joinedContext (context : List Passage) : String :=
  String.intercalate "\n\n"
    (context.enum.map fun ic => "[" ++ toString (ic.1 + 1) ++ "] " ++ ic.2.text)

/-- Embedding of `_build_prompt`: ungrounded variant on empty context,
grounded variant (with indexed passages) otherwise. -/
def _build_prompt (question : String) (context : List Passage) : String :=
  if context.isEmpty then
    ungroundedPre ++ question ++ ungroundedPost
  else
    groundedPre ++ question ++ groundedMid ++ joinedContext context ++ groundedPost

/-! ## Structured generation (`_call_llm_for_json`, rag.py lines 142-179) -/

/-- Embedding of `_call_llm_for_json`.  `apiKey` is `OPENAI_API_KEY`;
`responsesApi` and `chatApi` are the two generation interfaces as
oracles from the composed prompt to raw output text (or a raised
exception).  The first `except` block catches any failure of the
responses API *including a failed extraction of its output*, and falls
through to the legacy interface; a failure there is re-raised as
`RuntimeError("LLM call failed: ...")`. -/
def _call_llm_for_json (apiKey : String)
    (responsesApi chatApi : String → Except PyErr String)
    (question : String) (context : List Passage) : Except PyErr Json :=
  if pyStrip apiKey = "" then
    .error ⟨"RuntimeError", "OPENAI_API_KEY not set"⟩
  else
    let prompt := _build_prompt question context
    let attempt1 : Except PyErr Json :=
      match responsesApi prompt with
      | .ok text => _extract_json text
      | .error e => .error e
    match attempt1 with
    | .ok j => .ok j
    | .error _ =>
      let attempt2 : Except PyErr Json :=
        match chatApi prompt with
        | .ok text => _extract_json text
        | .error e => .error e
      match attempt2 with
      | .ok j => .ok j
      | .error e2 =>
        .error ⟨"RuntimeError", "LLM call failed: " ++ e2.kind ++ ": " ++ e2.msg⟩

/-! ## Fallback scaffolds and normalization (`generate_json`, rag.py 185-254) -/

/-- The fallback title: strip the phrasings `How do I` / `How to` from
the front of the question, strip whitespace, capitalize, and prefix
`How to `. -/
def fallbackTitle (question : String) : String :=
  "How to " ++
    pyCapitalize (pyStrip (pyRemovePrefix (pyRemovePrefix question "How do I") "How to"))

/-- The single step of the question-only scaffold (rag.py 206-213). -/
def questionOnlyStep : Json := .obj
  [ ("number", .num 1)
  , ("title", .str "Start with the basics")
  , ("action", .str "Break the task into small, verifiable steps.")
  , ("why", .str "Small steps reduce errors and make progress visible.")
  , ("check", .str "You can confirm each step independently.")
  , ("illustration_caption", .str "Show the first action on screen.") ]

/-- The question-only fallback scaffold (rag.py 203-218); its value is
dead code, see `generate_json`. -/
def questionOnlyScaffold (question : String) : Json := .obj
  [ ("title", .str (fallbackTitle question))
  , ("description", .str "This guide was generated without RAG (question-only).")
  , ("steps", .arr [questionOnlyStep])
  , ("pro_tip", .str "Add more details as you iterate.")
  , ("troubleshooting", .arr [])
  , ("safety", .arr [])
  , ("abstain", .bool false) ]

/-- The single step of the no-LLM fallback scaffold (rag.py 231-238). -/
def fallbackStep : Json := .obj
  [ ("number", .num 1)
  , ("title", .str "Review the provided document")
  , ("action", .str "Open the relevant source document and locate the section that answers your question.")
  , ("why", .str "To ensure instructions come only from your knowledge base.")
  , ("check", .str "You can cite the section/heading from the document.")
  , ("illustration_caption", .str "Open the document and highlight the relevant section.") ]

/-- The no-LLM fallback scaffold (rag.py 227-244). -/
def fallbackScaffold (question : String) : Json := .obj
  [ ("title", .str (fallbackTitle question))
  , ("description", .str "This guide was generated without LLM (fallback mode).")
  , ("steps", .arr [fallbackStep])
  , ("pro_tip", .str "Add more detailed documents to your library for richer steps.")
  , ("troubleshooting", .arr [.obj [("issue", .str "Empty or vague results"), ("fix", .str "Re-ingest with clearer .txt/.docx content.")]])
  , ("safety", .arr [])
  , ("abstain", .bool false) ]

/-- The six required top-level keys and their defaults
(rag.py 247-252). -/
def requiredDefaults : List (String × Json) :=
  [ ("title", .str "")
  , ("description", .str "")
  , ("steps", .arr [])
  , ("pro_tip", .str "")
  , ("troubleshooting", .arr [])
  , ("safety", .arr []) ]

/-- The defensive `setdefault` pass of `generate_json`. -/
def ensureDefaults (kvs : List (String × Json)) : List (String × Json) :=
  requiredDefaults.foldl (fun acc kv => dictSetdefault acc kv.1 kv.2) kvs

/-- Embedding of the public entry point `generate_json`.  The oracles:
`searchResult` is the body of `retrieve`; `responsesApi` / `chatApi` are
the two generation interfaces.  The mis-indented question-only block
(rag.py 196-218) is bound to `_questionOnly` and then discarded, exactly
as its value is discarded by the unconditional reassignment of `data` at
lines 222-244.  The final `setdefault` pass raises AttributeError when
the parsed LLM output is not a dict. -/
def generate_json (apiKey : String) (searchResult : Except String (List Hit))
    (responsesApi chatApi : String → Except PyErr String)
    (question : String) : Except PyErr Json :=
  let context := retrieve searchResult
  let _questionOnly : Json :=
    if context.isEmpty then
      match _call_llm_for_json apiKey responsesApi chatApi question [] with
      | .ok j => j
      | .error _ => questionOnlyScaffold question
    else .null
  let data : Json :=
    match _call_llm_for_json apiKey responsesApi chatApi question context with
    | .ok j => j
    | .error _ => fallbackScaffold question
  match data with
  | .obj kvs => .ok (.obj (ensureDefaults kvs))
  | other => .error (pyAttrErr other "setdefault")

/-- The six required keys. -/
def requiredKeys : List String :=
  ["title", "description", "steps", "pro_tip", "troubleshooting", "safety"]

/-- Whether a value is a dict containing every required key. -/
def jsonHasRequiredKeys (j : Json) : Bool :=
  match j with
  | .obj kvs => requiredKeys.all fun k => (dictGet kvs k).isSome
  | _ => false

/-- Whether a pipeline outcome is a returned document with every
required key present. -/
def resultWellFormed (r : Except PyErr Json) : Bool :=
  match r with
  | .ok j => jsonHasRequiredKeys j
  | .error _ => false

/-- Number of steps of a guide document. -/
def guideStepCount (j : Json) : Nat :=
  match j with
  | .obj kvs =>
    match dictGet kvs "steps" with
    | some (.arr l) => l.length
    | _ => 0
  | _ => 0

/-- A top-level field of a guide document. -/
def guideField (j : Json) (k : String) : Option Json :=
  match j with
  | .obj kvs => dictGet kvs k
  | _ => none

/-! ## SHA-256 (embedding `hashlib.sha256(...).hexdigest()`) -/

/-- Two to the thirty-two. -/
def m32 : Nat := 4294967296

/-- Addition modulo 2^32. -/
def add32 (a b : Nat) : Nat := (a + b) % m32

/-- Rotate a 32-bit word right by `n` bits. -/
def rotr (n x : Nat) : Nat := ((x >>> n) ||| (x <<< (32 - n))) % m32

/-- The SHA-256 small sigma-0 function. -/
def ssig0 (x : Nat) : Nat := (rotr 7 x ^^^ rotr 18 x) ^^^ (x >>> 3)

/-- The SHA-256 small sigma-1 function. -/
def ssig1 (x : Nat) : Nat := (rotr 17 x ^^^ rotr 19 x) ^^^ (x >>> 10)

/-- The SHA-256 big sigma-0 function. -/
def bsig0 (x : Nat) : Nat := (rotr 2 x ^^^ rotr 13 x) ^^^ rotr 22 x

/-- The SHA-256 big sigma-1 function. -/
def bsig1 (x : Nat) : Nat := (rotr 6 x ^^^ rotr 11 x) ^^^ rotr 25 x

/-- The SHA-256 choose function. -/
def chFn (e f g : Nat) : Nat := (e &&& f) ^^^ ((e ^^^ 4294967295) &&& g)

/-- The SHA-256 majority function. -/
def majFn (a b c : Nat) : Nat := ((a &&& b) ^^^ (a &&& c)) ^^^ (b &&& c)

/-- The sixty-four SHA-256 round constants, written as decimal
numerals. -/
def sha256K : List Nat :=
  [ 1116352408, 1899447441, 3049323471, 3921009573, 961987163, 1508970993
  , 2453635748, 2870763221, 3624381080, 310598401, 607225278, 1426881987
  , 1925078388, 2162078206, 2614888103, 3248222580, 3835390401, 4022224774
  , 264347078, 604807628, 770255983, 1249150122, 1555081692, 1996064986
  , 2554220882, 2821834349, 2952996808, 3210313671, 3336571891, 3584528711
  , 113926993, 338241895, 666307205, 773529912, 1294757372, 1396182291
  , 1695183700, 1986661051, 2177026350, 2456956037, 2730485921, 2820302411
  , 3259730800, 3345764771, 3516065817, 3600352804, 4094571909, 275423344
  , 430227734, 506948616, 659060556, 883997877, 958139571, 1322822218
  , 1537002063, 1747873779, 1955562222, 2024104815, 2227730452, 2361852424
  , 2428436474, 2756734187, 3204031479, 3329325298 ]

/-- The SHA-256 working state. -/
structure H8 where
  a : Nat
  b : Nat
  c : Nat
  d : Nat
  e : Nat
  f : Nat
  g : Nat
  h : Nat

/-- The eight SHA-256 initial hash words, written as decimal
numerals. -/
def sha256H0 : H8 :=
  ⟨1779033703, 3144134277, 1013904242, 2773480762, 1359893119, 2600822924, 528734635, 1541459225⟩

/-- Big-endian bytes of `n`, `count` bytes wide. -/
def natToBytesBE (n count : Nat) : List Nat :=
  (List.range count).map fun i => (n >>> (8 * (count - 1 - i))) &&& 255

/-- SHA-256 message padding: append `0x80`, zeros to 56 mod 64, then the
bit length as eight big-endian bytes. -/
def sha256Pad (msg : List Nat) : List Nat :=
  let len := msg.length
  let zeros := (64 - ((len + 9) % 64)) % 64
  msg ++ [0x80] ++ List.replicate zeros 0 ++ natToBytesBE (8 * len) 8

/-- Big-endian 32-bit words from bytes. -/
def bytesToWords : List Nat → List Nat
  | b0 :: b1 :: b2 :: b3 :: rest =>
    (((b0 * 256 + b1) * 256 + b2) * 256 + b3) :: bytesToWords rest
  | _ => []

/-- Extend a 16-word block schedule by `n` further words. -/
def scheduleExtend (w : List Nat) : Nat → List Nat
  | 0 => w
  | n + 1 =>
    let len := w.length
    let next :=
      add32 (add32 (ssig1 (w.getD (len - 2) 0)) (w.getD (len - 7) 0))
        (add32 (ssig0 (w.getD (len - 15) 0)) (w.getD (len - 16) 0))
    scheduleExtend (w ++ [next]) n

/-- One SHA-256 compression round. -/
def sha256Round (st : H8) (wk : Nat × Nat) : H8 :=
  let t1 := add32 st.h (add32 (bsig1 st.e) (add32 (chFn st.e st.f st.g) (add32 wk.2 wk.1)))
  let t2 := add32 (bsig0 st.a) (majFn st.a st.b st.c)
  ⟨add32 t1 t2, st.a, st.b, st.c, add32 st.d t1, st.e, st.f, st.g⟩

/-- Compress one 64-byte block into the running hash. -/
def sha256Block (h0 : H8) (block : List Nat) : H8 :=
  let w := scheduleExtend (bytesToWords block) 48
  let st := (w.zip sha256K).foldl sha256Round h0
  ⟨add32 h0.a st.a, add32 h0.b st.b, add32 h0.c st.c, add32 h0.d st.d,
   add32 h0.e st.e, add32 h0.f st.f, add32 h0.g st.g, add32 h0.h st.h⟩

/-- Split a byte list into 64-byte chunks (fuel-driven). -/
def chunks64 : Nat → List Nat → List (List Nat)
  | 0, _ => []
  | _, [] => []
  | fuel + 1, bs => bs.take 64 :: chunks64 fuel (bs.drop 64)

/-- The SHA-256 digest of a byte message, as eight 32-bit words. -/
def sha256 (msg : List Nat) : List Nat :=
  let padded := sha256Pad msg
  let final := (chunks64 padded.length padded).foldl sha256Block sha256H0
  [final.a, final.b, final.c, final.d, final.e, final.f, final.g, final.h]

/-- Lowercase hex digit. -/
def hexDigit (n : Nat) : Char :=
  if n < 10 then Char.ofNat (48 + n) else Char.ofNat (87 + n)

/-- Eight lowercase hex digits of a 32-bit word. -/
def wordToHex8 (w : Nat) : List Char :=
  [ hexDigit ((w >>> 28) &&& 15), hexDigit ((w >>> 24) &&& 15)
  , hexDigit ((w >>> 20) &&& 15), hexDigit ((w >>> 16) &&& 15)
  , hexDigit ((w >>> 12) &&& 15), hexDigit ((w >>> 8) &&& 15)
  , hexDigit ((w >>> 4) &&& 15), hexDigit (w &&& 15) ]

/-- UTF-8 bytes of one character (`str.encode("utf-8")`). -/
def utf8Bytes (c : Char) : List Nat :=
  let n := c.toNat
  if n < 0x80 then [n]
  else if n < 0x800 then
    [0xc0 ||| (n >>> 6), 0x80 ||| (n &&& 0x3f)]
  else if n < 0x10000 then
    [0xe0 ||| (n >>> 12), 0x80 ||| ((n >>> 6) &&& 0x3f), 0x80 ||| (n &&& 0x3f)]
  else
    [0xf0 ||| (n >>> 18), 0x80 ||| ((n >>> 12) &&& 0x3f),
     0x80 ||| ((n >>> 6) &&& 0x3f), 0x80 ||| (n &&& 0x3f)]

/-- UTF-8 encoding of a string. -/
def utf8Encode (s : String) : List Nat :=
  (s.data.map utf8Bytes).flatten

/-- Embedding of `_slug` (image_gen.py lines 33-34):
`hashlib.sha256(s.encode("utf-8")).hexdigest()[:16]`. -/
def _slug (s : String) : String :=
  ⟨(((sha256 (utf8Encode s)).map wordToHex8).flatten).take 16⟩

/-! ## Image generation (`image_gen.py`) -/

/-- Module-level configuration (image_gen.py lines 17-28), fixed at the
`os.getenv` defaults the module falls back to. -/
def IMAGE_PROVIDER : String := "openai"

/-- The default illustration style string. -/
def IMAGE_STYLE : String :=
  "instructional diagram, flat UI, neutral background, clear labels, no clutter"

/-- The default image size. -/
def IMAGE_SIZE : String := "1024x1024"

/-- The output directory (the second, shadowing definition at
image_gen.py line 27: `os.path.join("static", "images")`). -/
def OUT_DIR : String := "static/images"

/-- Embedding of `_prompt_from_step` (image_gen.py lines 37-47). -/
def _prompt_from_step (title action style : String) : String :=
  let title' := pyStrip title
  let action' := pyStrip action
  let core := if title' ≠ "" then title' else action'
  let detail := if action' ≠ "" ∧ title' ≠ "" then " Action: " ++ action' else ""
  style ++ ". Show: " ++ core ++ "." ++ detail ++ " " ++
    "Perspective: simple, straight-on. Background: white/neutral. " ++
    "Purpose: job-aid step illustration for technicians. " ++
    "Use minimal, readable labels if helpful. Avoid decorative elements."

/-- The cache key of a content tuple:
`_slug(title + "|" + action + "|" + style + "|" + provider)`
(image_gen.py line 154). -/
def cacheKeyOf (title action style provider : String) : String :=
  _slug (title ++ "|" ++ action ++ "|" ++ style ++ "|" ++ provider)

/-- An image-provider failure (exception class plus message). -/
structure ImgErr where
  kind : String
  msg : String

/-- The cache directory as a map from path to file bytes. -/
def FS : Type := String → Option (List Nat)

/-- Write a file. -/
def fsWrite (fs : FS) (p : String) (b : List Nat) : FS :=
  fun q => if q = p then some b else fs q

/-- Remove a file. -/
def fsRemove (fs : FS) (p : String) : FS :=
  fun q => if q = p then none else fs q

/-- Embedding of `(x or "").strip()` applied to a `dict.get` result:
absent and falsy values give `""`; a truthy string is stripped; calling
`.strip()` on a truthy non-string raises AttributeError. -/
def pyOrEmptyStrip (v : Option Json) : Except PyErr String :=
  match v with
  | none => .ok ""
  | some j =>
    if pyTruthy j then
      match j with
      | .str s => .ok (pyStrip s)
      | other => .error (pyAttrErr other "strip")
    else .ok ""

/-- Embedding of `list(x)` for truthy `x` (`data.get("steps") or []`). -/
def pyIter (j : Json) : Except PyErr (List Json) :=
  match j with
  | .arr xs => .ok xs
  | .str s => .ok (s.data.map fun c => Json.str ⟨[c]⟩)
  | .obj kvs => .ok (kvs.map fun kv => Json.str kv.1)
  | other => .error ⟨"TypeError", pyTypeName other ++ " object is not iterable"⟩

/-- One iteration of the `attach_step_images` loop (image_gen.py lines
144-173) on a single step.  Returns the updated filesystem, the step to
append, and how many times the image provider was invoked (0 or 1).
On a cache miss with a successful generation the bytes are written to
`fpath + ".tmp"` and the temporary is renamed onto `fpath`
(`os.replace`); on a failed generation `image_error` is set; in every
content-bearing case `image_url` is then set. -/
def attachOne (gen : String → Except ImgErr (List Nat)) (fs : FS) (s : Json) :
    Except PyErr (FS × Json × Nat) :=
  match s with
  | .obj kvs => do
    let title ← pyOrEmptyStrip (dictGet kvs "title")
    let action ← pyOrEmptyStrip (dictGet kvs "action")
    if title = "" ∧ action = "" then
      .ok (fs, .obj kvs, 0)
    else
      let key := cacheKeyOf title action IMAGE_STYLE IMAGE_PROVIDER
      let fname := key ++ ".png"
      let fpath := OUT_DIR ++ "/" ++ fname
      let step1 : FS × List (String × Json) × Nat :=
        if (fs fpath).isSome then (fs, kvs, 0)
        else
          match gen (_prompt_from_step title action IMAGE_STYLE) with
          | .ok bytes =>
            let tmpPath := fpath ++ ".tmp"
            (fsRemove (fsWrite (fsWrite fs tmpPath bytes) fpath bytes) tmpPath, kvs, 1)
          | .error e =>
            (fs, dictSet kvs "image_error" (.str (e.kind ++ ": " ++ e.msg)), 1)
      .ok (step1.1, .obj (dictSet step1.2.1 "image_url" (.str ("/static/images/" ++ fname))), step1.2.2)
  | other => .error (pyAttrErr other "get")

/-- The `attach_step_images` loop over the step list, threading the
filesystem and counting provider invocations. -/
def attachLoop (gen : String → Except ImgErr (List Nat)) (fs : FS) :
    List Json → Except PyErr (FS × List Json × Nat)
  | [] => .ok (fs, [], 0)
  | s :: rest => do
    let (fs1, s1, c1) ← attachOne gen fs s
    let (fs2, out, c2) ← attachLoop gen fs1 rest
    .ok (fs2, s1 :: out, c1 + c2)

/-- Embedding of `attach_step_images` (image_gen.py lines 122-176):
read `data.get("steps") or []`, process each step, and store the output
list back under `"steps"`. -/
def attach_step_images (gen : String → Except ImgErr (List Nat)) (fs : FS)
    (data : Json) : Except PyErr (FS × Json × Nat) :=
  match data with
  | .obj kvs => do
    let steps ←
      match dictGet kvs "steps" with
      | none => Except.ok ([] : List Json)
      | some v => if pyTruthy v then pyIter v else Except.ok ([] : List Json)
    let (fs1, out, c) ← attachLoop gen fs steps
    .ok (fs1, .obj (dictSet kvs "steps" (.arr out)), c)
  | other => .error (pyAttrErr other "get")

/-! ### Step-level accessors used by the statements -/

/-- The stripped title of a step dict (`""` when absent or non-string;
the well-formedness checker below excludes truthy non-strings). -/
def stepTitle (s : Json) : String :=
  match s with
  | .obj kvs =>
    match dictGet kvs "title" with
    | some (.str t) => pyStrip t
    | _ => ""
  | _ => ""

/-- The stripped action of a step dict. -/
def stepAction (s : Json) : String :=
  match s with
  | .obj kvs =>
    match dictGet kvs "action" with
    | some (.str t) => pyStrip t
    | _ => ""
  | _ => ""

/-- Whether a step carries content (non-empty title or action). -/
def stepNonEmpty (s : Json) : Bool :=
  !(stepTitle s = "" && stepAction s = "")

/-- The cache key of a step under the active configuration. -/
def stepKey (s : Json) : String :=
  cacheKeyOf (stepTitle s) (stepAction s) IMAGE_STYLE IMAGE_PROVIDER

/-- The cache file name of a step. -/
def stepFname (s : Json) : String := stepKey s ++ ".png"

/-- The cache file path of a step. -/
def stepFPath (s : Json) : String := OUT_DIR ++ "/" ++ stepFname s

/-- The public URL attached to a step. -/
def stepUrl (s : Json) : String := "/static/images/" ++ stepFname s

/-- The illustration prompt of a step. -/
def stepPrompt (s : Json) : String :=
  _prompt_from_step (stepTitle s) (stepAction s) IMAGE_STYLE

/-- Shape check for one step: a dict whose `title` and `action` are
strings or absent. -/
def stepWF (s : Json) : Bool :=
  match s with
  | .obj kvs =>
    (match dictGet kvs "title" with
     | none => true
     | some (.str _) => true
     | some _ => false) &&
    (match dictGet kvs "action" with
     | none => true
     | some (.str _) => true
     | some _ => false)
  | _ => false

/-- Whether every content-bearing step already has its cache file. -/
def allCached (fs : FS) (steps : List Json) : Bool :=
  steps.all fun s => !stepNonEmpty s || (fs (stepFPath s)).isSome

/-- The provider-invocation count of a run of `attach_step_images`
(`none` when the call raises). -/
def attachCount (gen : String → Except ImgErr (List Nat)) (fs : FS)
    (data : Json) : Option Nat :=
  match attach_step_images gen fs data with
  | .ok r => some r.2.2
  | .error _ => none

/-- Whether a run of `attach_step_images` returns normally. -/
def attachOk (gen : String → Except ImgErr (List Nat)) (fs : FS)
    (data : Json) : Bool :=
  match attach_step_images gen fs data with
  | .ok _ => true
  | .error _ => false

/-- The document returned by `attach_step_images` (`Json.null` when the
call raises). -/
def attachData (gen : String → Except ImgErr (List Nat)) (fs : FS)
    (data : Json) : Json :=
  match attach_step_images gen fs data with
  | .ok r => r.2.1
  | .error _ => .null

/-- The output step list of `attach_step_images`. -/
def attachSteps (gen : String → Except ImgErr (List Nat)) (fs : FS)
    (data : Json) : List Json :=
  match attach_step_images gen fs data with
  | .ok (_, .obj kvs, _) =>
    match dictGet kvs "steps" with
    | some (.arr out) => out
    | _ => []
  | _ => []

/-- Field lookup on a step dict. -/
def stepField (s : Json) (k : String) : Option Json :=
  match s with
  | .obj kvs => dictGet kvs k
  | _ => none

/-! ## The cache-miss write path under concurrency (for C7)

A finer-grained model of the three filesystem actions a cache-miss
writer performs (image_gen.py lines 163-167):

* `create`: `open(tmp_path, "wb")` - creates the file at the shared
  temporary path, or truncates the inode already there and keeps a file
  descriptor to it;
* `write`: `f.write(img_bytes)` - fills the inode the descriptor points
  to;
* `rename`: `os.replace(tmp_path, fpath)` - atomically moves the
  directory entry from the temporary path to the final path, or raises
  FileNotFoundError when the temporary path is gone (the exception is
  caught by the per-step handler and recorded as `image_error`).

Because the temporary path is derived deterministically from the final
path (`tmp_path = fpath + ".tmp"`), two concurrent writers of the same
key share it.  Directory entries map paths to inodes; descriptors
survive renames and truncations of their inode. -/

/-- The per-writer actions. -/
inductive WAct where
  | create
  | write
  | rename
deriving DecidableEq, Repr

/-- A scheduled action: which of the two writers, and what it does. -/
structure TAct where
  second : Bool
  act : WAct
deriving DecidableEq, Repr

/-- The shared state: the two directory entries, inode contents
(`true` = the full image bytes, `false` = empty), each writer's open
descriptor, and whether its rename raised. -/
structure TState where
  tmpEnt : Option Nat
  finEnt : Option Nat
  inodes : List Bool
  fdA : Option Nat
  fdB : Option Nat
  errA : Bool
  errB : Bool
deriving DecidableEq, Repr

/-- The initial state: empty cache. -/
def tInit : TState := ⟨none, none, [], none, none, false, false⟩

/-- Set a writer's descriptor. -/
def setFd (s : TState) (second : Bool) (i : Nat) : TState :=
  if second then { s with fdB := some i } else { s with fdA := some i }

/-- One scheduled action. -/
def tstep (s : TState) (a : TAct) : TState :=
  match a.act with
  | .create =>
    match s.tmpEnt with
    | some i => setFd { s with inodes := s.inodes.set i false } a.second i
    | none =>
      let i := s.inodes.length
      setFd { s with inodes := s.inodes ++ [false], tmpEnt := some i } a.second i
  | .write =>
    match (if a.second then s.fdB else s.fdA) with
    | some i => { s with inodes := s.inodes.set i true }
    | none => s
  | .rename =>
    match s.tmpEnt with
    | some i => { s with finEnt := some i, tmpEnt := none }
    | none => if a.second then { s with errB := true } else { s with errA := true }

/-- Run a schedule from the empty cache. -/
def trun (acts : List TAct) : TState :=
  acts.foldl tstep tInit

/-- Whether a reader at this instant sees a zero-byte file at the final
path. -/
def emptyAtFinal (s : TState) : Bool :=
  match s.finEnt with
  | some i => !(s.inodes.getD i true)
  | none => false

/-- Whether the final path holds the complete bytes. -/
def fullAtFinal (s : TState) : Bool :=
  match s.finEnt with
  | some i => s.inodes.getD i false
  | none => false

/-- The program of the first writer. -/
def progA : List TAct := [⟨false, .create⟩, ⟨false, .write⟩, ⟨false, .rename⟩]

/-- The program of the second writer. -/
def progB : List TAct := [⟨true, .create⟩, ⟨true, .write⟩, ⟨true, .rename⟩]

/-- All interleavings of two action sequences (fuel-driven so that the
recursion is structural and computes definitionally). -/
def mergesAux : Nat → List TAct → List TAct → List (List TAct)
  | 0, _, _ => []
  | _ + 1, [], ys => [ys]
  | _ + 1, x :: xs, [] => [x :: xs]
  | fuel + 1, x :: xs, y :: ys =>
    (mergesAux fuel xs (y :: ys)).map (x :: ·) ++
      (mergesAux fuel (x :: xs) ys).map (y :: ·)

/-- All interleavings of two action sequences. -/
def merges (xs ys : List TAct) : List (List TAct) :=
  mergesAux (xs.length + ys.length + 1) xs ys

/-- All prefixes of a list. -/
def prefixesOf (l : List TAct) : List (List TAct) :=
  (List.range (l.length + 1)).map fun n => l.take n

/-- All prefixes of all interleavings of the two writers. -/
def twoWriterPrefixes : List (List TAct) :=
  ((merges progA progB).map prefixesOf).flatten

/-- The interleaving prefix that exposes a zero-byte file at the final
path: A creates and fills the shared temporary, B reopens (truncating)
it, then A renames the now-empty inode into place. -/
def raceTrace : List TAct :=
  [⟨false, .create⟩, ⟨false, .write⟩, ⟨true, .create⟩, ⟨false, .rename⟩]

/-! ## Strings referenced by the prompt-mode claim (C5) -/

/-- The word tied to the abstain behaviour. -/
def abstainWord : String := "abstain"

/-- The grounded prompt's abstain instruction (rag.py line 110). -/
def abstainInstruction : String :=
  "If the context does not contain enough information to answer, set \"steps\": [] and include only \"abstain\": true."

/-- The ungrounded prompt's general-knowledge authorisation
(rag.py line 88). -/
def generalKnowledgeRule : String :=
  "Use general knowledge and best practices to answer."

/-- Substring containment, as Python `in` on strings: list-infix on the
character lists. -/
def strContains (hay needle : String) : Prop :=
  needle.data <:+: hay.data

instance (hay needle : String) : Decidable (strContains hay needle) :=
  List.decidableInfix _ _

/-! ## Supporting lemmas -/

theorem str_data_append (a b : String) : (a ++ b).data = a.data ++ b.data := by
  cases a; cases b; rfl

theorem headOfPrefixEq {α : Type*} {l₁ l₂ : List α} (h : l₁ <+: l₂) (hne : l₁ ≠ []) :
    l₁.head? = l₂.head? := by
  obtain ⟨t, rfl⟩ := h
  cases l₁ with
  | nil => exact absurd rfl hne
  | cons a l => rfl

theorem memOfHead {α : Type*} {l : List α} {a : α} (h : l.head? = some a) : a ∈ l := by
  cases l with
  | nil => cases h
  | cons b t => cases h; exact List.mem_cons_self _ _

theorem infixSplit {α : Type*} {n a b : List α} (h : n <:+: a ++ b) :
    n <:+: a ∨ n <:+: b ∨
      ∃ n1 n2, n = n1 ++ n2 ∧ n1 ≠ [] ∧ n2 ≠ [] ∧ n1 <:+ a ∧ n2 <+: b := by
  induction a with
  | nil => exact Or.inr (Or.inl (by simpa using h))
  | cons x xs ih =>
    rw [List.cons_append] at h
    rcases List.infix_cons_iff.mp h with hpre | htail
    · by_cases hlen : n.length ≤ (x :: xs).length
      · exact Or.inl (((List.isPrefix_append_of_length hlen).mp hpre).isInfix)
      · push_neg at hlen
        have hn : n = List.take n.length ((x :: xs) ++ b) := List.prefix_iff_eq_take.mp hpre
        rw [List.take_append_eq_append_take, List.take_of_length_le (le_of_lt hlen)] at hn
        refine Or.inr (Or.inr ⟨x :: xs, List.take (n.length - (x :: xs).length) b, hn,
          by simp, ?_, List.suffix_refl _, List.take_prefix _ _⟩)
        intro h0
        rw [h0, List.append_nil] at hn
        rw [hn] at hlen
        exact absurd hlen (lt_irrefl _)
    · rcases ih htail with h1 | h2 | ⟨n1, n2, hsplit, hn1, hn2, hsuf, hpre2⟩
      · exact Or.inl (List.infix_cons h1)
      · exact Or.inr (Or.inl h2)
      · exact Or.inr (Or.inr ⟨n1, n2, hsplit, hn1, hn2,
          hsuf.trans (List.suffix_cons x xs), hpre2⟩)

theorem dictGet_set_self (kvs : List (String × Json)) (k : String) (v : Json) :
    dictGet (dictSet kvs k v) k = some v := by
  induction kvs with
  | nil => simp [dictSet, dictGet]
  | cons kv rest ih =>
    obtain ⟨k', v'⟩ := kv
    by_cases h : k' = k
    · simp [dictSet, dictGet, h]
    · simp [dictSet, dictGet, h, ih]

theorem dictGet_set_other (kvs : List (String × Json)) (k k' : String) (v : Json)
    (h : k' ≠ k) : dictGet (dictSet kvs k v) k' = dictGet kvs k' := by
  induction kvs with
  | nil => simp [dictSet, dictGet, Ne.symm h]
  | cons kv rest ih =>
    obtain ⟨k0, v0⟩ := kv
    by_cases h0 : k0 = k
    · subst h0
      simp [dictSet, dictGet, Ne.symm h]
    · simp only [dictSet, if_neg h0]
      by_cases h1 : k0 = k'
      · simp [dictGet, h1]
      · simp [dictGet, h1, ih]

theorem dictGet_append_found (a b : List (String × Json)) (k : String) (v : Json)
    (h : dictGet a k = some v) : dictGet (a ++ b) k = some v := by
  induction a with
  | nil => cases h
  | cons kv rest ih =>
    obtain ⟨k0, v0⟩ := kv
    by_cases h0 : k0 = k
    · simp only [dictGet, if_pos h0] at h
      simp [dictGet, h0, h]
    · simp only [dictGet, if_neg h0] at h
      simp [dictGet, h0, ih h]

theorem dictGet_append_missing (a b : List (String × Json)) (k : String)
    (h : dictGet a k = none) : dictGet (a ++ b) k = dictGet b k := by
  induction a with
  | nil => rfl
  | cons kv rest ih =>
    obtain ⟨k0, v0⟩ := kv
    by_cases h0 : k0 = k
    · simp only [dictGet, if_pos h0] at h
      cases h
    · simp only [dictGet, if_neg h0] at h ⊢
      exact ih h

theorem dictGet_setdefault_self (kvs : List (String × Json)) (k : String) (v : Json) :
    (dictGet (dictSetdefault kvs k v) k).isSome = true := by
  unfold dictSetdefault
  cases h : dictGet kvs k with
  | some w => simp [h]
  | none =>
    rw [dictGet_append_missing _ _ _ h]
    simp [dictGet]

theorem dictGet_setdefault_mono (kvs : List (String × Json)) (k' : String) (v' : Json)
    (k : String) (h : (dictGet kvs k).isSome = true) :
    (dictGet (dictSetdefault kvs k' v') k).isSome = true := by
  unfold dictSetdefault
  cases h0 : dictGet kvs k' with
  | some w => exact h
  | none =>
    obtain ⟨v, hv⟩ := Option.isSome_iff_exists.mp h
    simp [dictGet_append_found _ _ _ _ hv]

theorem ensureDefaults_hasKeys (kvs : List (String × Json)) :
    jsonHasRequiredKeys (.obj (ensureDefaults kvs)) = true := by
  show (requiredKeys.all fun k => (dictGet (ensureDefaults kvs) k).isSome) = true
  simp only [ensureDefaults, requiredDefaults, requiredKeys, List.foldl, List.all,
    Bool.and_eq_true, List.all_nil, Bool.and_true]
  refine ⟨?_, ?_, ?_, ?_, ?_, ?_⟩ <;>
    repeat (first
      | exact dictGet_setdefault_self _ _ _
      | apply dictGet_setdefault_mono)

theorem generate_json_eq (apiKey : String) (searchResult : Except String (List Hit))
    (responsesApi chatApi : String → Except PyErr String) (question : String) :
    generate_json apiKey searchResult responsesApi chatApi question =
      match (match _call_llm_for_json apiKey responsesApi chatApi question
                      (retrieve searchResult) with
             | .ok j => j
             | .error _ => fallbackScaffold question) with
      | .obj kvs => .ok (.obj (ensureDefaults kvs))
      | other => .error (pyAttrErr other "setdefault") := rfl

theorem callLLM_noKey (apiKey : String)
    (responsesApi chatApi : String → Except PyErr String)
    (question : String) (context : List Passage) (h : pyStrip apiKey = "") :
    _call_llm_for_json apiKey responsesApi chatApi question context =
      .error ⟨"RuntimeError", "OPENAI_API_KEY not set"⟩ := by
  simp [_call_llm_for_json, h]

theorem callLLM_bothFail (apiKey : String) (e1 e2 : String → PyErr)
    (responsesApi chatApi : String → Except PyErr String)
    (question : String) (context : List Passage)
    (h1 : ∀ p, responsesApi p = .error (e1 p))
    (h2 : ∀ p, chatApi p = .error (e2 p)) :
    ∃ e, _call_llm_for_json apiKey responsesApi chatApi question context = .error e := by
  by_cases hk : pyStrip apiKey = ""
  · exact ⟨_, callLLM_noKey _ _ _ _ _ hk⟩
  · refine ⟨⟨"RuntimeError", "LLM call failed: "
      ++ (e2 (_build_prompt question context)).kind ++ ": "
      ++ (e2 (_build_prompt question context)).msg⟩, ?_⟩
    simp only [_call_llm_for_json, if_neg hk, h1, h2]

theorem slugLen (s : String) : (_slug s).length = 16 := by
  have h : ((((sha256 (utf8Encode s)).map wordToHex8)).flatten).length = 64 := rfl
  show (((((sha256 (utf8Encode s)).map wordToHex8)).flatten).take 16).length = 16
  rw [List.length_take, h]
  decide

theorem pyOrEmptyStrip_str (t : String) :
    pyOrEmptyStrip (some (.str t)) = .ok (pyStrip t) := by
  by_cases h : t = ""
  · subst h; rfl
  · simp [pyOrEmptyStrip, pyTruthy, h]

theorem attachOne_props (gen : String → Except ImgErr (List Nat)) (fs : FS) (s : Json)
    (h : stepWF s = true) :
    ∃ fs' s' c, attachOne gen fs s = .ok (fs', s', c) ∧
      (stepNonEmpty s = false → fs' = fs ∧ s' = s ∧ c = 0) ∧
      (stepNonEmpty s = true →
        stepField s' "image_url" = some (.str (stepUrl s)) ∧
        ((fs (stepFPath s)).isSome = true → fs' = fs ∧ c = 0) ∧
        (∀ e, fs (stepFPath s) = none → gen (stepPrompt s) = .error e →
          fs' = fs ∧ stepField s' "image_error" = some (.str (e.kind ++ ": " ++ e.msg)))) := by
  match s, h with
  | .obj kvs, h =>
  simp only [stepWF, Bool.and_eq_true] at h
  obtain ⟨ht, ha⟩ := h
  have htitle : pyOrEmptyStrip (dictGet kvs "title") = .ok (stepTitle (.obj kvs)) := by
    cases hv : dictGet kvs "title" with
    | none => simp [pyOrEmptyStrip, stepTitle, hv]
    | some v =>
      rw [hv] at ht
      match v, ht with
      | .str t, _ => rw [pyOrEmptyStrip_str]; simp [stepTitle, hv]
  have haction : pyOrEmptyStrip (dictGet kvs "action") = .ok (stepAction (.obj kvs)) := by
    cases hv : dictGet kvs "action" with
    | none => simp [pyOrEmptyStrip, stepAction, hv]
    | some v =>
      rw [hv] at ha
      match v, ha with
      | .str t, _ => rw [pyOrEmptyStrip_str]; simp [stepAction, hv]
  by_cases hne : stepTitle (.obj kvs) = "" ∧ stepAction (.obj kvs) = ""
  · refine ⟨fs, .obj kvs, 0, ?_, ?_, ?_⟩
    · simp only [attachOne, htitle, haction, Bind.bind, Except.bind, if_pos hne]
    · intro _; exact ⟨rfl, rfl, rfl⟩
    · intro hfalse
      simp [stepNonEmpty, hne.1, hne.2] at hfalse
  · have hStepNE : stepNonEmpty (.obj kvs) = true := by
      simp only [stepNonEmpty, Bool.not_eq_true']
      rw [Bool.and_eq_false_iff]
      rcases not_and_or.mp hne with h | h
      · exact Or.inl (by simpa using h)
      · exact Or.inr (by simpa using h)
    by_cases hcached : (fs (stepFPath (.obj kvs))).isSome = true
    · refine ⟨fs, .obj (dictSet kvs "image_url" (.str (stepUrl (.obj kvs)))), 0, ?_, ?_, ?_⟩
      · simp only [attachOne, htitle, haction, Bind.bind, Except.bind, if_neg hne]
        simp only [stepFPath, stepFname, stepKey, stepUrl] at hcached ⊢
        rw [if_pos hcached]
      · intro hf; rw [hStepNE] at hf; cases hf
      · intro _
        refine ⟨?_, fun _ => ⟨rfl, rfl⟩, fun e hnone _ => ?_⟩
        · simp [stepField, dictGet_set_self]
        · rw [hnone] at hcached; cases hcached
    · rw [Bool.not_eq_true] at hcached
      have hnone : fs (stepFPath (.obj kvs)) = none := by
        cases hfv : fs (stepFPath (.obj kvs)) with
        | none => rfl
        | some b => rw [hfv] at hcached; simp at hcached
      cases hg : gen (stepPrompt (.obj kvs)) with
      | ok bytes =>
        refine ⟨fsRemove (fsWrite (fsWrite fs (stepFPath (.obj kvs) ++ ".tmp") bytes)
            (stepFPath (.obj kvs)) bytes) (stepFPath (.obj kvs) ++ ".tmp"),
          .obj (dictSet kvs "image_url" (.str (stepUrl (.obj kvs)))), 1, ?_, ?_, ?_⟩
        · simp only [attachOne, htitle, haction, Bind.bind, Except.bind, if_neg hne]
          simp only [stepFPath, stepFname, stepKey, stepUrl, stepPrompt] at hnone hg ⊢
          rw [hnone]
          simp only [Option.isSome_none, Bool.false_eq_true, if_neg (by simp : ¬False)]
          rw [hg]
        · intro hf; rw [hStepNE] at hf; cases hf
        · intro _
          refine ⟨by simp [stepField, dictGet_set_self], ?_, fun e hn hge => ?_⟩
          · intro hsome; rw [hnone] at hsome; cases hsome
          · exact Except.noConfusion hge
      | error e =>
        refine ⟨fs, .obj (dictSet (dictSet kvs "image_error" (.str (e.kind ++ ": " ++ e.msg)))
          "image_url" (.str (stepUrl (.obj kvs)))), 1, ?_, ?_, ?_⟩
        · simp only [attachOne, htitle, haction, Bind.bind, Except.bind, if_neg hne]
          simp only [stepFPath, stepFname, stepKey, stepUrl, stepPrompt] at hnone hg ⊢
          rw [hnone]
          simp only [Option.isSome_none, Bool.false_eq_true, if_neg (by simp : ¬False)]
          rw [hg]
        · intro hf; rw [hStepNE] at hf; cases hf
        · intro _
          refine ⟨by simp [stepField, dictGet_set_self], ?_, fun e' hn hge => ?_⟩
          · intro hsome; rw [hnone] at hsome; cases hsome
          · injection hge with he
            subst he
            refine ⟨rfl, ?_⟩
            show dictGet (dictSet (dictSet kvs "image_error" _) "image_url" _) "image_error" = _
            rw [dictGet_set_other _ _ _ _ (by decide), dictGet_set_self]

theorem attachLoop_props (gen : String → Except ImgErr (List Nat)) :
    ∀ (steps : List Json) (fs : FS), steps.all stepWF = true →
    ∃ fs' out c, attachLoop gen fs steps = .ok (fs', out, c) ∧
      out.length = steps.length ∧
      ∀ i, i < steps.length → stepNonEmpty (steps.getD i .null) = true →
        stepField (out.getD i .null) "image_url"
          = some (.str (stepUrl (steps.getD i .null))) := by
  intro steps
  induction steps with
  | nil =>
    intro fs _
    exact ⟨fs, [], 0, rfl, rfl, fun i hi => absurd hi (by simp)⟩
  | cons s rest ih =>
    intro fs hwf
    rw [List.all_cons, Bool.and_eq_true] at hwf
    obtain ⟨fs1, s1, c1, h1, hemp, hne⟩ := attachOne_props gen fs s hwf.1
    obtain ⟨fs2, out, c2, h2, hlen, hurl⟩ := ih fs1 hwf.2
    refine ⟨fs2, s1 :: out, c1 + c2, ?_, by simp [hlen], ?_⟩
    · simp only [attachLoop, h1, Bind.bind, Except.bind, h2]
    · intro i hi hnei
      cases i with
      | zero =>
        simp only [List.getD_cons_zero] at hnei ⊢
        exact (hne hnei).1
      | succ n =>
        simp only [List.getD_cons_succ] at hnei ⊢
        exact hurl n (by simpa using hi) hnei

theorem attachLoop_cachedZero (gen : String → Except ImgErr (List Nat)) :
    ∀ (steps : List Json) (fs : FS), steps.all stepWF = true →
    allCached fs steps = true →
    ∃ out, attachLoop gen fs steps = .ok (fs, out, 0) := by
  intro steps
  induction steps with
  | nil => exact fun fs _ _ => ⟨[], rfl⟩
  | cons s rest ih =>
    intro fs hwf hc
    rw [List.all_cons, Bool.and_eq_true] at hwf
    unfold allCached at hc
    rw [List.all_cons, Bool.and_eq_true] at hc
    obtain ⟨fs1, s1, c1, h1, hemp, hne⟩ := attachOne_props gen fs s hwf.1
    have hstep : fs1 = fs ∧ c1 = 0 := by
      rcases Bool.or_eq_true_iff.mp hc.1 with hno | hcached
      · have := hemp (by simpa using hno)
        exact ⟨this.1, this.2.2⟩
      · by_cases hn : stepNonEmpty s = true
        · exact (hne hn).2.1 hcached
        · have := hemp (by simpa using hn)
          exact ⟨this.1, this.2.2⟩
    obtain ⟨out, h2⟩ := ih fs hwf.2 hc.2
    refine ⟨s1 :: out, ?_⟩
    rw [hstep.1, hstep.2] at h1
    simp [attachLoop, h1, Bind.bind, Except.bind, h2]

theorem attachLoop_failProv (ef : String → ImgErr) :
    ∀ (steps : List Json) (fs : FS), steps.all stepWF = true →
    ∃ out c, attachLoop (fun p => .error (ef p)) fs steps = .ok (fs, out, c) ∧
      out.length = steps.length ∧
      ∀ i, i < steps.length → stepNonEmpty (steps.getD i .null) = true →
        fs (stepFPath (steps.getD i .null)) = none →
        stepField (out.getD i .null) "image_error"
          = some (.str ((ef (stepPrompt (steps.getD i .null))).kind ++ ": "
              ++ (ef (stepPrompt (steps.getD i .null))).msg)) ∧
        stepField (out.getD i .null) "image_url"
          = some (.str (stepUrl (steps.getD i .null))) := by
  intro steps
  induction steps with
  | nil =>
    intro fs _
    exact ⟨[], 0, rfl, rfl, fun i hi => absurd hi (by simp)⟩
  | cons s rest ih =>
    intro fs hwf
    rw [List.all_cons, Bool.and_eq_true] at hwf
    obtain ⟨fs1, s1, c1, h1, hemp, hne⟩ :=
      attachOne_props (fun p => .error (ef p)) fs s hwf.1
    have hfs1 : fs1 = fs := by
      by_cases hn : stepNonEmpty s = true
      · by_cases hcc : (fs (stepFPath s)).isSome = true
        · exact ((hne hn).2.1 hcc).1
        · have hnone : fs (stepFPath s) = none := by
            cases hfv : fs (stepFPath s) with
            | none => rfl
            | some b => rw [hfv] at hcc; simp at hcc
          exact ((hne hn).2.2 (ef (stepPrompt s)) hnone rfl).1
      · exact (hemp (by simpa using hn)).1
    obtain ⟨out, c2, h2, hlen, hprops⟩ := ih fs hwf.2
    rw [hfs1] at h1
    refine ⟨s1 :: out, c1 + c2, ?_, by simp [hlen], ?_⟩
    · simp only [attachLoop, h1, Bind.bind, Except.bind, h2]
    · intro i hi hnei hnonei
      cases i with
      | zero =>
        simp only [List.getD_cons_zero] at hnei hnonei ⊢
        refine ⟨((hne hnei).2.2 (ef (stepPrompt s)) hnonei rfl).2, (hne hnei).1⟩
      | succ n =>
        simp only [List.getD_cons_succ] at hnei hnonei ⊢
        exact hprops n (by simpa using hi) hnei hnonei

theorem stepsExtractArr (kvs : List (String × Json)) (steps : List Json)
    (h : dictGet kvs "steps" = some (.arr steps)) :
    (match dictGet kvs "steps" with
     | none => Except.ok ([] : List Json)
     | some v => if pyTruthy v then pyIter v else Except.ok ([] : List Json))
      = (.ok steps : Except PyErr (List Json)) := by
  rw [h]
  cases steps with
  | nil => rfl
  | cons a l => rfl

theorem attach_ok_eq (gen : String → Except ImgErr (List Nat)) (fs : FS)
    (kvs : List (String × Json)) (steps : List Json)
    (h : dictGet kvs "steps" = some (.arr steps))
    (fs' : FS) (out : List Json) (c : Nat)
    (hl : attachLoop gen fs steps = .ok (fs', out, c)) :
    attach_step_images gen fs (.obj kvs)
      = .ok (fs', .obj (dictSet kvs "steps" (.arr out)), c) := by
  simp only [attach_step_images, h]
  cases steps with
  | nil =>
    have h0 : (Except.ok (fs, ([] : List Json), 0)
        : Except PyErr (FS × List Json × Nat)) = .ok (fs', out, c) := hl
    injection h0 with h2
    rw [Prod.mk.injEq] at h2
    obtain ⟨h3, h4⟩ := h2
    rw [Prod.mk.injEq] at h4
    obtain ⟨h5, h6⟩ := h4
    subst h3; subst h5; subst h6
    rfl
  | cons a l =>
    simp [pyTruthy, pyIter, Bind.bind, Except.bind, hl]

/-! ## The claims -/

/-- C9: for every infrastructure error raised inside the body of
`retrieve` (index unavailable, embedding backend unreachable,
misconfiguration - all modelled as any raised exception), `retrieve`
returns the empty passage sequence rather than propagating the
exception, so retrieval never prevents the pipeline from proceeding. -/
theorem c9_retrieve_absorbs_errors (e : String) : retrieve (.error e) = [] := rfl

/-- C3: `_extract_json` first replaces the text by the interior of a
fenced code block when one is present (taking precedence over
brace-scanning), then narrows to the span from the first opening brace
through the last closing brace, then parses that span as JSON; on the
fenced example it yields the object `a = 1`, on the noisy brace example
it yields the same object, on unparseable text with no braces it fails
with a parse error rather than returning a value, and a fenced block
wins even when braces appear outside the fence. -/
theorem c3_extract_json_behaviour :
    (∀ text : String, _extract_json text =
      if text = "" then .error ⟨"ValueError", "Empty LLM response"⟩
      else jsonLoadsChars (braceStep (fenceStep text.data)))
  ∧ _extract_json "here you go:\n```json\n\x7b\"a\":1\x7d\n```\nthanks"
      = .ok (.obj [("a", .num 1)])
  ∧ _extract_json "noise \x7b\"a\":1\x7d trailing" = .ok (.obj [("a", .num 1)])
  ∧ _extract_json "unparseable text with no braces" = .error jsonDecodeErr
  ∧ _extract_json "\x7b\"b\":2\x7d oops ```json\n\x7b\"a\":1\x7d\n```"
      = .ok (.obj [("a", .num 1)]) :=
  ⟨fun _ => rfl, rfl, rfl, rfl, rfl⟩

/-- C10: the cache key is not injective on (title, action) pairs: the
distinct pairs `("a|b", "c")` and `("a", "b|c")` concatenate (with the
unescaped separator) to the same hashed string under every style and
provider, so they share one cache key and one image file path. -/
theorem c10_cache_key_collision (style provider : String) :
    ("a|b", "c") ≠ (("a", "b|c") : String × String)
  ∧ cacheKeyOf "a|b" "c" style provider = cacheKeyOf "a" "b|c" style provider
  ∧ OUT_DIR ++ "/" ++ (cacheKeyOf "a|b" "c" style provider ++ ".png")
      = OUT_DIR ++ "/" ++ (cacheKeyOf "a" "b|c" style provider ++ ".png") :=
  ⟨by decide, rfl, rfl⟩

/-- C7 counterexample: because concurrent identical requests share the
deterministic temporary path, the interleaving `raceTrace` (writer A
creates and fills the temporary, writer B reopens - truncating - it,
then A renames it into place) is a prefix of a legal schedule of the
two writers and reaches a state in which the final path holds a
zero-byte file, refuting the claim that no reader ever observes a
zero-byte or partially-written file at the final path. -/
theorem c7_counterexample :
    emptyAtFinal (trun raceTrace) = true
  ∧ (raceTrace ++ [⟨true, .write⟩, ⟨true, .rename⟩]) ∈ merges progA progB :=
  ⟨by decide, by decide⟩

/-- C7 (amended): a single uncontended cache-miss writer never exposes
an empty file at the final path at any point of its
create/write/rename sequence and never fails its rename; and although
two concurrent identical writers can transiently expose a zero-byte
file (see the counterexample), after both complete - under every one of
their interleavings - the final path holds the complete bytes. -/
theorem c7_write_path_amended :
    ((prefixesOf progA).all fun p => !emptyAtFinal (trun p)) = true
  ∧ ((prefixesOf progA).all fun p => !(trun p).errA) = true
  ∧ ((merges progA progB).all fun il => fullAtFinal (trun il)) = true :=
  ⟨by decide, by decide, by decide⟩

/-- C2 counterexample: with the generation credential absent (blank
`OPENAI_API_KEY`), `generate_json` returns the fallback scaffold
normally - the configuration error raised by `_call_llm_for_json` is
caught by the same blanket `except` as every other failure, so it does
*not* escape the public entry point, contradicting the claim that it is
the one failure that escapes. -/
theorem c2_counterexample :
    generate_json "" (.error "qdrant down")
      (fun _ => .error ⟨"APIError", "timeout"⟩)
      (fun _ => .error ⟨"APIError", "timeout"⟩)
      "How to test" = .ok (fallbackScaffold "How to test") := rfl

/-- C2 (amended): when the generation credential is absent the
generation stage `_call_llm_for_json` does fail fast with
`RuntimeError("OPENAI_API_KEY not set")`, but `generate_json` absorbs
this failure like any other generation failure and returns the fallback
scaffold document; no generation-stage failure escapes the public entry
point. -/
theorem c2_amended (apiKey : String) (searchResult : Except String (List Hit))
    (responsesApi chatApi : String → Except PyErr String)
    (question : String) (context : List Passage)
    (h : pyStrip apiKey = "") :
    _call_llm_for_json apiKey responsesApi chatApi question context
      = .error ⟨"RuntimeError", "OPENAI_API_KEY not set"⟩
  ∧ generate_json apiKey searchResult responsesApi chatApi question
      = .ok (fallbackScaffold question) := by
  refine ⟨callLLM_noKey _ _ _ _ _ h, ?_⟩
  rw [generate_json_eq, callLLM_noKey _ _ _ _ _ h]
  exact rfl

/-- C2 witness: the amended claim at the blank key, a failing search
and failing generation interfaces. -/
theorem c2_witness :
    _call_llm_for_json "" (fun _ => .error ⟨"E", "m"⟩) (fun _ => .error ⟨"E", "m"⟩)
        "How do I focus" []
      = .error ⟨"RuntimeError", "OPENAI_API_KEY not set"⟩
  ∧ generate_json "" (.error "down") (fun _ => .error ⟨"E", "m"⟩)
        (fun _ => .error ⟨"E", "m"⟩) "How do I focus"
      = .ok (fallbackScaffold "How do I focus") :=
  c2_amended "" (.error "down") (fun _ => .error ⟨"E", "m"⟩) (fun _ => .error ⟨"E", "m"⟩)
    "How do I focus" [] rfl

/-- C4: whenever both generation interfaces raise (for every prompt),
`generate_json` returns the fallback scaffold: a document with exactly
one step, `abstain = false`, and a title derived from the question by
stripping the leading phrasings `How do I` and `How to`, stripping
whitespace, and capitalizing, prefixed with `How to `. -/
theorem c4_generation_failure (apiKey : String) (searchResult : Except String (List Hit))
    (e1 e2 : String → PyErr) (responsesApi chatApi : String → Except PyErr String)
    (question : String)
    (h1 : ∀ p, responsesApi p = .error (e1 p))
    (h2 : ∀ p, chatApi p = .error (e2 p)) :
    generate_json apiKey searchResult responsesApi chatApi question
      = .ok (fallbackScaffold question)
  ∧ guideStepCount (fallbackScaffold question) = 1
  ∧ guideField (fallbackScaffold question) "abstain" = some (.bool false)
  ∧ guideField (fallbackScaffold question) "title"
      = some (.str ("How to " ++ pyCapitalize (pyStrip
          (pyRemovePrefix (pyRemovePrefix question "How do I") "How to")))) := by
  obtain ⟨e, he⟩ := callLLM_bothFail apiKey e1 e2 responsesApi chatApi question
    (retrieve searchResult) h1 h2
  refine ⟨?_, rfl, rfl, rfl⟩
  rw [generate_json_eq, he]
  exact rfl

/-- C4 witness: the theorem at a concrete question with both interfaces
raising. -/
theorem c4_witness :
    generate_json "key" (.error "down") (fun _ => .error ⟨"Timeout", "t"⟩)
        (fun _ => .error ⟨"BadGateway", "b"⟩) "How do I grill salmon"
      = .ok (fallbackScaffold "How do I grill salmon")
  ∧ guideStepCount (fallbackScaffold "How do I grill salmon") = 1
  ∧ guideField (fallbackScaffold "How do I grill salmon") "abstain" = some (.bool false)
  ∧ guideField (fallbackScaffold "How do I grill salmon") "title"
      = some (.str ("How to " ++ pyCapitalize (pyStrip
          (pyRemovePrefix (pyRemovePrefix "How do I grill salmon" "How do I") "How to")))) :=
  c4_generation_failure "key" (.error "down") (fun _ => ⟨"Timeout", "t"⟩)
    (fun _ => ⟨"BadGateway", "b"⟩)
    (fun _ => .error ⟨"Timeout", "t"⟩) (fun _ => .error ⟨"BadGateway", "b"⟩)
    "How do I grill salmon" (fun _ => rfl) (fun _ => rfl)

/-- C1 counterexample: when the responses interface returns the text
`3` - valid JSON that is not an object - `generate_json` raises
AttributeError from the `setdefault` pass instead of returning a
document, refuting the claim that it never raises (and with it the
claim of type-correct fields). -/
theorem c1_counterexample :
    generate_json "key" (.error "no index") (fun _ => .ok "3") (fun _ => .ok "3") "q"
      = .error (pyAttrErr (.num 3) "setdefault") := rfl

/-- C1 (amended): for every question, search outcome and generation
oracles, provided every successful generation result is a JSON object
(in particular whenever generation fails), `generate_json` returns a
document in which the six required top-level fields are all present;
their types are not enforced beyond the defaults, and a non-object
generation result instead raises (see the counterexample). -/
theorem c1_amended (apiKey : String) (searchResult : Except String (List Hit))
    (responsesApi chatApi : String → Except PyErr String) (question : String)
    (hObj : ∀ context j,
      _call_llm_for_json apiKey responsesApi chatApi question context = .ok j →
      j.isObj = true) :
    resultWellFormed (generate_json apiKey searchResult responsesApi chatApi question)
      = true := by
  rw [generate_json_eq]
  cases hc : _call_llm_for_json apiKey responsesApi chatApi question
      (retrieve searchResult) with
  | ok j =>
    have hj := hObj _ j hc
    match j, hj with
    | .obj kvs, _ =>
      show resultWellFormed (.ok (.obj (ensureDefaults kvs))) = true
      exact ensureDefaults_hasKeys kvs
  | error e =>
    show resultWellFormed (.ok (.obj (ensureDefaults _))) = true
    exact ensureDefaults_hasKeys _

/-- C1 witness: the amended claim at failing generation interfaces. -/
theorem c1_witness :
    resultWellFormed (generate_json "key" (.error "no index")
      (fun _ => .error ⟨"APIError", "down"⟩) (fun _ => .error ⟨"APIError", "down"⟩)
      "How to sharpen a chisel") = true :=
  c1_amended "key" (.error "no index")
    (fun _ => .error ⟨"APIError", "down"⟩) (fun _ => .error ⟨"APIError", "down"⟩)
    "How to sharpen a chisel"
    (fun context j h => by
      have heq : _call_llm_for_json "key" (fun _ => .error ⟨"APIError", "down"⟩)
          (fun _ => .error ⟨"APIError", "down"⟩) "How to sharpen a chisel" context
          = .error ⟨"RuntimeError", "LLM call failed: APIError: down"⟩ := rfl
      rw [heq] at h
      cases h)

/-- C6: the cache key of a (title, action, style, provider) tuple is
exactly the truncated content hash of the pipe-joined fields - a pure
function of the tuple, so identical tuples always produce the same key -
of fixed length 16; and a call to `attach_step_images` in which every
content-bearing step's keyed file already exists performs no image
generation at all (at-most-once generation per content identity). -/
theorem c6_cache_key_and_idempotence (title action style provider : String)
    (gen : String → Except ImgErr (List Nat)) (fs : FS)
    (kvs : List (String × Json)) (steps : List Json)
    (hsteps : dictGet kvs "steps" = some (.arr steps))
    (hwf : steps.all stepWF = true)
    (hcached : allCached fs steps = true) :
    cacheKeyOf title action style provider
      = _slug (title ++ "|" ++ action ++ "|" ++ style ++ "|" ++ provider)
  ∧ (cacheKeyOf title action style provider).length = 16
  ∧ attachCount gen fs (.obj kvs) = some 0 := by
  refine ⟨rfl, slugLen _, ?_⟩
  obtain ⟨out, hl⟩ := attachLoop_cachedZero gen steps fs hwf hcached
  show (match attach_step_images gen fs (.obj kvs) with
        | .ok r => some r.2.2
        | .error _ => none) = some 0
  rw [attach_ok_eq gen fs kvs steps hsteps fs out 0 hl]

/-- C6 witness: a concrete guide whose single content-bearing step is
already cached (the filesystem holds every path), so the second,
cache-warm call generates nothing. -/
theorem c6_witness :
    cacheKeyOf "Open the panel" "Tap settings" "sketch" "openai"
      = _slug ("Open the panel" ++ "|" ++ "Tap settings" ++ "|" ++ "sketch" ++ "|" ++ "openai")
  ∧ (cacheKeyOf "Open the panel" "Tap settings" "sketch" "openai").length = 16
  ∧ attachCount (fun _ => .ok [1]) (fun _ => some [7])
      (.obj [("title", .str "Warm guide"),
             ("steps", .arr [.obj [("title", .str "Open the panel"),
                                   ("action", .str "Tap settings")]])]) = some 0 :=
  c6_cache_key_and_idempotence "Open the panel" "Tap settings" "sketch" "openai"
    (fun _ => .ok [1]) (fun _ => some [7])
    [("title", .str "Warm guide"),
     ("steps", .arr [.obj [("title", .str "Open the panel"),
                           ("action", .str "Tap settings")]])]
    [.obj [("title", .str "Open the panel"), ("action", .str "Tap settings")]]
    rfl (by decide) (by decide)

/-- C8: on a well-shaped guide, `attach_step_images` returns normally;
the returned document is the input document with only its `steps` entry
replaced (the rest of the document is processed and returned); the
output has one step per input step; every step whose stripped title or
action is non-empty gains `image_url = /static/images/<key>.png`; and
under a failing image provider, a content-bearing step whose cache file
is absent gains a structured `image_error` string (error kind and
message) while still gaining the same `image_url`. -/
theorem c8_attach_step_images (gen : String → Except ImgErr (List Nat))
    (ef : String → ImgErr) (fs : FS)
    (kvs : List (String × Json)) (steps : List Json) (i : Nat)
    (hsteps : dictGet kvs "steps" = some (.arr steps))
    (hwf : steps.all stepWF = true)
    (hi : i < steps.length) :
    attachOk gen fs (.obj kvs) = true
  ∧ attachData gen fs (.obj kvs)
      = .obj (dictSet kvs "steps" (.arr (attachSteps gen fs (.obj kvs))))
  ∧ (attachSteps gen fs (.obj kvs)).length = steps.length
  ∧ (stepNonEmpty (steps.getD i .null) = true →
      stepField ((attachSteps gen fs (.obj kvs)).getD i .null) "image_url"
        = some (.str (stepUrl (steps.getD i .null))))
  ∧ (stepNonEmpty (steps.getD i .null) = true →
      fs (stepFPath (steps.getD i .null)) = none →
      stepField ((attachSteps (fun p => .error (ef p)) fs (.obj kvs)).getD i .null)
          "image_error"
        = some (.str ((ef (stepPrompt (steps.getD i .null))).kind ++ ": "
            ++ (ef (stepPrompt (steps.getD i .null))).msg))
      ∧ stepField ((attachSteps (fun p => .error (ef p)) fs (.obj kvs)).getD i .null)
          "image_url"
        = some (.str (stepUrl (steps.getD i .null)))) := by
  obtain ⟨fs', out, c, hl, hlen, hurl⟩ := attachLoop_props gen steps fs hwf
  have heq := attach_ok_eq gen fs kvs steps hsteps fs' out c hl
  obtain ⟨out2, c2, hl2, hlen2, hprops2⟩ := attachLoop_failProv ef steps fs hwf
  have heq2 := attach_ok_eq (fun p => .error (ef p)) fs kvs steps hsteps fs out2 c2 hl2
  have hso : attachSteps gen fs (.obj kvs) = out := by
    show (match attach_step_images gen fs (.obj kvs) with
          | .ok (_, .obj kvs2, _) =>
            match dictGet kvs2 "steps" with
            | some (.arr o) => o
            | _ => []
          | _ => []) = out
    rw [heq]
    simp [dictGet_set_self]
  have hso2 : attachSteps (fun p => .error (ef p)) fs (.obj kvs) = out2 := by
    show (match attach_step_images (fun p => .error (ef p)) fs (.obj kvs) with
          | .ok (_, .obj kvs2, _) =>
            match dictGet kvs2 "steps" with
            | some (.arr o) => o
            | _ => []
          | _ => []) = out2
    rw [heq2]
    simp [dictGet_set_self]
  refine ⟨?_, ?_, ?_, ?_, ?_⟩
  · show (match attach_step_images gen fs (.obj kvs) with
          | .ok _ => true
          | .error _ => false) = true
    rw [heq]
  · show (match attach_step_images gen fs (.obj kvs) with
          | .ok r => r.2.1
          | .error _ => .null)
      = .obj (dictSet kvs "steps" (.arr (attachSteps gen fs (.obj kvs))))
    rw [heq, hso]
  · rw [hso]; exact hlen
  · intro hne
    rw [hso]
    exact hurl i hi hne
  · intro hne hnone
    rw [hso2]
    exact hprops2 i hi hne hnone

/-- C8 witness: a concrete two-step guide against an empty cache with
the shape hypotheses discharged by computation. -/
theorem c8_witness :
    attachOk (fun _ => .ok [1]) (fun _ => none)
      (.obj [("title", .str "G"),
             ("steps", .arr [.obj [("title", .str "Open the panel"),
                                   ("action", .str "Tap settings")],
                             .obj [("title", .str ""), ("action", .str "Press start")]])])
      = true
  ∧ attachData (fun _ => .ok [1]) (fun _ => none)
      (.obj [("title", .str "G"),
             ("steps", .arr [.obj [("title", .str "Open the panel"),
                                   ("action", .str "Tap settings")],
                             .obj [("title", .str ""), ("action", .str "Press start")]])])
      = .obj (dictSet [("title", .str "G"),
             ("steps", .arr [.obj [("title", .str "Open the panel"),
                                   ("action", .str "Tap settings")],
                             .obj [("title", .str ""), ("action", .str "Press start")]])]
          "steps" (.arr (attachSteps (fun _ => .ok [1]) (fun _ => none)
            (.obj [("title", .str "G"),
                   ("steps", .arr [.obj [("title", .str "Open the panel"),
                                         ("action", .str "Tap settings")],
                                   .obj [("title", .str ""), ("action", .str "Press start")]])]))))
  ∧ (attachSteps (fun _ => .ok [1]) (fun _ => none)
      (.obj [("title", .str "G"),
             ("steps", .arr [.obj [("title", .str "Open the panel"),
                                   ("action", .str "Tap settings")],
                             .obj [("title", .str ""), ("action", .str "Press start")]])])).length
      = ([.obj [("title", .str "Open the panel"), ("action", .str "Tap settings")],
          .obj [("title", .str ""), ("action", .str "Press start")]] : List Json).length
  ∧ (stepNonEmpty (([.obj [("title", .str "Open the panel"), ("action", .str "Tap settings")],
          .obj [("title", .str ""), ("action", .str "Press start")]] : List Json).getD 0 .null) = true →
      stepField ((attachSteps (fun _ => .ok [1]) (fun _ => none)
        (.obj [("title", .str "G"),
               ("steps", .arr [.obj [("title", .str "Open the panel"),
                                     ("action", .str "Tap settings")],
                               .obj [("title", .str ""), ("action", .str "Press start")]])])).getD 0 .null)
          "image_url"
        = some (.str (stepUrl (([.obj [("title", .str "Open the panel"),
                                       ("action", .str "Tap settings")],
                                 .obj [("title", .str ""), ("action", .str "Press start")]] : List Json).getD 0 .null))))
  ∧ (stepNonEmpty (([.obj [("title", .str "Open the panel"), ("action", .str "Tap settings")],
          .obj [("title", .str ""), ("action", .str "Press start")]] : List Json).getD 0 .null) = true →
      (fun _ => (none : Option (List Nat)))
          (stepFPath (([.obj [("title", .str "Open the panel"), ("action", .str "Tap settings")],
              .obj [("title", .str ""), ("action", .str "Press start")]] : List Json).getD 0 .null)) = none →
      stepField ((attachSteps (fun _ => .error (⟨"RuntimeError", "boom"⟩ : ImgErr))
          (fun _ => none)
          (.obj [("title", .str "G"),
                 ("steps", .arr [.obj [("title", .str "Open the panel"),
                                       ("action", .str "Tap settings")],
                                 .obj [("title", .str ""), ("action", .str "Press start")]])])).getD 0 .null)
          "image_error"
        = some (.str ((⟨"RuntimeError", "boom"⟩ : ImgErr).kind ++ ": "
            ++ (⟨"RuntimeError", "boom"⟩ : ImgErr).msg))
      ∧ stepField ((attachSteps (fun _ => .error (⟨"RuntimeError", "boom"⟩ : ImgErr))
          (fun _ => none)
          (.obj [("title", .str "G"),
                 ("steps", .arr [.obj [("title", .str "Open the panel"),
                                       ("action", .str "Tap settings")],
                                 .obj [("title", .str ""), ("action", .str "Press start")]])])).getD 0 .null)
          "image_url"
        = some (.str (stepUrl (([.obj [("title", .str "Open the panel"),
                                       ("action", .str "Tap settings")],
                                 .obj [("title", .str ""), ("action", .str "Press start")]] : List Json).getD 0 .null)))) :=
  c8_attach_step_images (fun _ => .ok [1]) (fun _ => (⟨"RuntimeError", "boom"⟩ : ImgErr))
    (fun _ => none)
    [("title", .str "G"),
     ("steps", .arr [.obj [("title", .str "Open the panel"), ("action", .str "Tap settings")],
                     .obj [("title", .str ""), ("action", .str "Press start")]])]
    [.obj [("title", .str "Open the panel"), ("action", .str "Tap settings")],
     .obj [("title", .str ""), ("action", .str "Press start")]]
    0 rfl (by decide) (by decide)

/-- C5: with an empty passage list the composed prompt is exactly the
ungrounded variant - which contains the general-knowledge authorisation
and, as long as the interpolated question itself does not contain the
word `abstain`, contains no occurrence of `abstain` at all (in
particular no abstain instruction tied to insufficient context) - and
with a non-empty passage list it is the grounded variant, which
contains the abstain instruction verbatim. -/
theorem c5_prompt_modes (question : String) (context : List Passage) :
    (context = [] →
        _build_prompt question context = ungroundedPre ++ question ++ ungroundedPost
      ∧ strContains (_build_prompt question context) generalKnowledgeRule
      ∧ ¬ strContains ungroundedPre abstainWord
      ∧ ¬ strContains ungroundedPost abstainWord
      ∧ (¬ strContains question abstainWord →
          ¬ strContains (_build_prompt question context) abstainWord))
  ∧ (context ≠ [] → strContains (_build_prompt question context) abstainInstruction) := by
  constructor
  · rintro rfl
    refine ⟨rfl, ?_, by decide, by decide, ?_⟩
    · show generalKnowledgeRule.data <:+: ((ungroundedPre ++ question) ++ ungroundedPost).data
      rw [str_data_append, str_data_append]
      have hgk : generalKnowledgeRule.data <:+: ungroundedPre.data := by decide
      exact hgk.trans
        (((List.prefix_append _ _).trans (List.prefix_append _ _)).isInfix)
    · intro hq habs
      have habs' : abstainWord.data <:+:
          (ungroundedPre.data ++ question.data) ++ ungroundedPost.data := by
        have : abstainWord.data <:+: ((ungroundedPre ++ question) ++ ungroundedPost).data :=
          habs
        rwa [str_data_append, str_data_append] at this
      rcases infixSplit habs' with h1 | h2 | ⟨n1, n2, hsp, hn1, hn2, hsuf, hpre⟩
      · rcases infixSplit h1 with ha | hb | ⟨m1, m2, hsp2, hm1, hm2, hsuf2, hpre2⟩
        · exact absurd ha (by decide)
        · exact hq hb
        · have hrev : m1.reverse <+: ungroundedPre.data.reverse :=
            List.reverse_prefix.mpr hsuf2
          have hh : m1.reverse.head? = ungroundedPre.data.reverse.head? :=
            headOfPrefixEq hrev (by simpa using hm1)
          have hsp3 : ungroundedPre.data.reverse.head? = some ' ' := by decide
          have hmemr : ' ' ∈ m1.reverse := memOfHead (hh.trans hsp3)
          have hmem : ' ' ∈ abstainWord.data := by
            rw [hsp2]
            exact List.mem_append.mpr (Or.inl (List.mem_reverse.mp hmemr))
          exact absurd hmem (by decide)
      · exact absurd h2 (by decide)
      · have hh : n2.head? = ungroundedPost.data.head? := headOfPrefixEq hpre hn2
        have hsp3 : ungroundedPost.data.head? = some '\n' := by decide
        have hmem : '\n' ∈ abstainWord.data := by
          rw [hsp]
          exact List.mem_append.mpr (Or.inr (memOfHead (hh.trans hsp3)))
        exact absurd hmem (by decide)
  · intro hctx
    cases context with
    | nil => exact absurd rfl hctx
    | cons p rest =>
      show abstainInstruction.data <:+:
        ((((groundedPre ++ question) ++ groundedMid) ++ joinedContext (p :: rest))
          ++ groundedPost).data
      rw [str_data_append, str_data_append, str_data_append, str_data_append]
      have h0 : abstainInstruction.data <:+: groundedPre.data := by decide
      exact h0.trans
        (((((List.prefix_append _ _).trans (List.prefix_append _ _)).trans
          (List.prefix_append _ _)).trans (List.prefix_append _ _)).isInfix)

/-- C5 witness: the two modes at a concrete question and a concrete
passage. -/
theorem c5_witness :
    _build_prompt "q0" [] = ungroundedPre ++ "q0" ++ ungroundedPost
  ∧ strContains (_build_prompt "q0" [⟨"chunk text", "doc.txt"⟩]) abstainInstruction := by
  have h1 := (c5_prompt_modes "q0" []).1 rfl
  have h2 := (c5_prompt_modes "q0" [⟨"chunk text", "doc.txt"⟩]).2 (by simp)
  exact ⟨h1.1, h2⟩
